import Mathlib

/-
Verification of the metric correlation and assembly algorithm of
`tpu_info` (files `tpu_info/metrics.py` and `tpu_info/cli.py`).

The embedding models:
  * a telemetry sample (`Metric`) with its integer attribute
    (`attribute.value.int_attr`), integer gauge (`gauge.as_int`) and
    double gauge (`gauge.as_double`; doubles are only copied, never
    computed with, so they are carried as rationals);
  * `sorted_metric_response`, the per-stream stable sort by `int_attr`
    (Python's `sorted` with key, realised by `List.mergeSort`);
  * `get_chip_usage`, with the three transport results passed in as
    `Except` values standing for the three `GetRuntimeMetric` calls
    (a raised `grpc.RpcError` propagates; the length `assert` raises
    an `AssertionError` with the fixed message
    "Metrics not found for all chips");
  * the `try/except grpc.RpcError` handler of `print_chip_info` in
    `cli.py`, which swallows the `UNAVAILABLE` status code and
    re-raises every other error.
-/

namespace TpuInfo

/-- One telemetry sample as read by `metrics.py`: `attribute.value.int_attr`
is the opaque core-index attribute, `gauge.as_int` the integer gauge and
`gauge.as_double` the double gauge. -/
structure Metric where
  int_attr : Int
  as_int : Int
  as_double : Rat
deriving DecidableEq

/-- Placeholder sample used as the default of `List.getD`; every index the
assembler reads is in range once the length assert has passed, so this
value is never the one returned. -/
def mdummy : Metric := ⟨0, 0, 0⟩

/-- Embeds `sorted_metric_response` of `metrics.py`: the raw sample list of
one `GetRuntimeMetric` response, sorted ascending (stably) by
`attribute.value.int_attr`. -/
def sorted_metric_response (ms : List Metric) : List Metric :=
  ms.mergeSort (fun a b => decide (a.int_attr ≤ b.int_attr))

/-- Embeds the named tuple `CoreUsage` of `metrics.py`. -/
structure CoreUsage where
  core_id : Int
  memory_usage : Int
  total_memory : Int
deriving DecidableEq

/-- Embeds the named tuple `ChipUsage` of `metrics.py`. -/
structure ChipUsage where
  core_usage : List CoreUsage
  duty_cycle_pct : Rat
deriving DecidableEq

/-- Status code of a `grpc.RpcError`: `UNAVAILABLE` is the one code
`cli.py` treats specially; every other code is collapsed into `other`. -/
inductive StatusCode where
  | unavailable
  | other (n : Nat)
deriving DecidableEq

/-- A raised `grpc.RpcError`, identified by its status code. -/
structure RpcError where
  code : StatusCode
deriving DecidableEq

/-- The exceptions `get_chip_usage` can raise: a propagated
`grpc.RpcError` from one of the three transport calls, or the
`AssertionError` (with its message string) of the length assert. -/
inductive QueryError where
  | rpcError (e : RpcError)
  | assertionError (msg : String)
deriving DecidableEq

/-- Embeds the inner core loop of `get_chip_usage` (`metrics.py` lines
93-100): the `core_usage` list built for chip `chip_idx`, reading
`core_id` and `memory_usage` from the sorted usage stream and
`total_memory` from the sorted totals stream at index
`chip_idx * k + core_idx`. -/
def build_core_usage (k : Nat) (totals usages : List Metric) (chip_idx : Nat) :
    List CoreUsage :=
  (List.range k).map fun core_idx =>
    { core_id := (usages.getD (chip_idx * k + core_idx) mdummy).int_attr
      memory_usage := (usages.getD (chip_idx * k + core_idx) mdummy).as_int
      total_memory := (totals.getD (chip_idx * k + core_idx) mdummy).as_int }

/-- Embeds the outer chip loop of `get_chip_usage` (`metrics.py` lines
87-101): one `ChipUsage` per entry of the sorted duty-cycle stream,
carrying that entry's double gauge. -/
def build_usage (k : Nat) (totals usages duty_cycle_pct : List Metric) :
    List ChipUsage :=
  (List.range duty_cycle_pct.length).map fun chip_idx =>
    { core_usage := build_core_usage k totals usages chip_idx
      duty_cycle_pct := (duty_cycle_pct.getD chip_idx mdummy).as_double }

/-- Embeds `get_chip_usage` of `metrics.py`. `k` is
`chip_type.value.accelerators_per_chip`; the three `Except` arguments are
the results of the three `GetRuntimeMetric` calls, issued in source
order (totals, usages, duty cycle), the first raised `grpc.RpcError`
propagating unchanged. After fetching, each stream is sorted, the chained
length assert `len(totals) == len(usages) == len(duty_cycle_pct) * k` is
checked, and on success the chip list is assembled. -/
def get_chip_usage (k : Nat)
    (totals_resp usages_resp duty_resp : Except RpcError (List Metric)) :
    Except QueryError (List ChipUsage) :=
  match totals_resp with
  | .error e => .error (.rpcError e)
  | .ok totals_raw =>
    match usages_resp with
    | .error e => .error (.rpcError e)
    | .ok usages_raw =>
      match duty_resp with
      | .error e => .error (.rpcError e)
      | .ok duty_raw =>
        let totals := sorted_metric_response totals_raw
        let usages := sorted_metric_response usages_raw
        let duty_cycle_pct := sorted_metric_response duty_raw
        if totals.length = usages.length ∧
            usages.length = duty_cycle_pct.length * k then
          .ok (build_usage k totals usages duty_cycle_pct)
        else
          .error (.assertionError "Metrics not found for all chips")

/-- Outcome of the `try/except` block of `print_chip_info` in `cli.py`:
either the usage table is rendered from the returned list, or the
function returns early on `UNAVAILABLE` without printing any usage, or
the exception escapes `print_chip_info`. -/
inductive CliOutcome where
  | printedTable (usage : List ChipUsage)
  | returnedNoUsage
  | raised (e : QueryError)
deriving DecidableEq

/-- Embeds the error handling of `print_chip_info` (`cli.py` lines
76-89) around the call to `metrics.get_chip_usage`: a `grpc.RpcError`
whose code is `UNAVAILABLE` makes the function return early; any other
`grpc.RpcError` is re-raised unchanged by `raise e`; an
`AssertionError` is not caught by `except grpc.RpcError` and also
escapes. -/
def print_chip_info_handle (r : Except QueryError (List ChipUsage)) :
    CliOutcome :=
  match r with
  | .ok usage => .printedTable usage
  | .error (.rpcError e) =>
    if e.code = .unavailable then .returnedNoUsage
    else .raised (.rpcError e)
  | .error err => .raised err

/-- Strict comparison of two samples by their sort key
`attribute.value.int_attr`; used to reason about the sort. -/
def attr_lt (a b : Metric) : Prop := a.int_attr < b.int_attr

instance : IsAntisymm Metric attr_lt :=
  ⟨fun a _ hab hba => absurd (lt_trans hab hba) (lt_irrefl a.int_attr)⟩

/-- Helper: the sort preserves the length of a stream. -/
theorem sorted_metric_response_length (ms : List Metric) :
    (sorted_metric_response ms).length = ms.length :=
  (List.mergeSort_perm ms _).length_eq

/-- Helper: a successful run of `get_chip_usage` means all three
transport calls succeeded, the chained length assert held on the sorted
streams, and the output is exactly the assembled list. -/
theorem get_chip_usage_ok_elim {k : Nat} {traw uraw draw : List Metric}
    {out : List ChipUsage}
    (hok : get_chip_usage k (.ok traw) (.ok uraw) (.ok draw) = .ok out) :
    (sorted_metric_response traw).length = (sorted_metric_response uraw).length ∧
    (sorted_metric_response uraw).length =
      (sorted_metric_response draw).length * k ∧
    out = build_usage k (sorted_metric_response traw)
      (sorted_metric_response uraw) (sorted_metric_response draw) := by
  simp only [get_chip_usage] at hok
  split at hok
  · rename_i hcond
    exact ⟨hcond.1, hcond.2, ((Except.ok.injEq _ _).mp hok).symm⟩
  · exact absurd hok (by simp)

/-- Claim C10: when all three fetched streams are empty the length check
holds (`0 = 0 * k`), no error is signaled, and `get_chip_usage` returns
the empty list of `ChipUsage` records. -/
theorem get_chip_usage_empty_streams (k : Nat) :
    get_chip_usage k (.ok []) (.ok []) (.ok []) = .ok [] := by
  simp [get_chip_usage, sorted_metric_response, build_usage]

/-- Claim C4: for every input passing validation, the output has exactly
one `ChipUsage` per entry of the duty-cycle stream. -/
theorem get_chip_usage_output_length {k : Nat} {traw uraw draw : List Metric}
    {out : List ChipUsage}
    (hok : get_chip_usage k (.ok traw) (.ok uraw) (.ok draw) = .ok out) :
    out.length = draw.length := by
  obtain ⟨-, -, hout⟩ := get_chip_usage_ok_elim hok
  rw [hout, build_usage, List.length_map, List.length_range,
    sorted_metric_response_length]

/-- Witness for C4 at a concrete validated input. -/
theorem get_chip_usage_output_length_witness :
    ([ChipUsage.mk [⟨0, 1, 2⟩] (1/2)].length = [Metric.mk 0 0 (1/2)].length) :=
  @get_chip_usage_output_length 1 [⟨0, 2, 0⟩] [⟨0, 1, 0⟩] [⟨0, 0, 1/2⟩]
    [ChipUsage.mk [⟨0, 1, 2⟩] (1/2)]
    (by simp [get_chip_usage, sorted_metric_response, build_usage,
      build_core_usage, mdummy, List.range_succ])

/-- Claim C5: for every input passing validation, every output chip's
`core_usage` sequence has length exactly `k` (the cores-per-chip fan-out
of the chip's hardware type). -/
theorem get_chip_usage_core_usage_length {k : Nat}
    {traw uraw draw : List Metric} {out : List ChipUsage}
    (hok : get_chip_usage k (.ok traw) (.ok uraw) (.ok draw) = .ok out) :
    ∀ chip ∈ out, chip.core_usage.length = k := by
  obtain ⟨-, -, hout⟩ := get_chip_usage_ok_elim hok
  subst hout
  intro chip hchip
  obtain ⟨i, -, hi⟩ := List.mem_map.mp hchip
  rw [← hi]
  simp [build_core_usage]

/-- Witness for C5 at a concrete validated input. -/
theorem get_chip_usage_core_usage_length_witness :
    (ChipUsage.mk [⟨0, 1, 2⟩] (1/2)).core_usage.length = 1 :=
  @get_chip_usage_core_usage_length 1 [⟨0, 2, 0⟩] [⟨0, 1, 0⟩] [⟨0, 0, 1/2⟩]
    [ChipUsage.mk [⟨0, 1, 2⟩] (1/2)]
    (by simp [get_chip_usage, sorted_metric_response, build_usage,
      build_core_usage, mdummy, List.range_succ])
    (ChipUsage.mk [⟨0, 1, 2⟩] (1/2)) (List.mem_singleton.mpr rfl)

/-- Helper: the sorted stream is non-decreasing in the sort key
`attribute.value.int_attr`. -/
theorem sorted_metric_response_pairwise (ms : List Metric) :
    (sorted_metric_response ms).Pairwise
      (fun a b => a.int_attr ≤ b.int_attr) := by
  have h := @List.sorted_mergeSort Metric
    (fun a b => decide (a.int_attr ≤ b.int_attr))
    (fun a b c hab hbc => by
      simp only [decide_eq_true_eq] at hab hbc ⊢
      exact le_trans hab hbc)
    (fun a b => by
      simp only [Bool.or_eq_true, decide_eq_true_eq]
      exact le_total a.int_attr b.int_attr)
    ms
  exact h.imp (fun hab => by simpa using hab)

/-- Helper: a chip index below the duty-cycle stream length and a core
offset below the fan-out address an in-range index of the (sorted) usage
and totals streams, given the validated length equation. -/
theorem chip_core_index_lt {i j k n : Nat} (hi : i < n) (hj : j < k) :
    i * k + j < n * k := by
  calc i * k + j < i * k + k := Nat.add_lt_add_left hj _
    _ = (i + 1) * k := (Nat.succ_mul i k).symm
    _ ≤ n * k := Nat.mul_le_mul_right k hi

/-- Claim C1: for every validated input, chip index `i` and core offset
`j < k`, the index `i * k + j` is in range of the sorted usage stream,
and the `j`-th `CoreUsage` of output chip `i` takes `core_id` from the
`attribute.value.int_attr` of `sortedUsages[i * k + j]`,
`memory_usage` from that same usage sample's integer gauge, and
`total_memory` from the integer gauge of the correspondingly-indexed
entry of the sorted totals stream. -/
theorem get_chip_usage_core_fields {k : Nat} {traw uraw draw : List Metric}
    {out : List ChipUsage}
    (hok : get_chip_usage k (.ok traw) (.ok uraw) (.ok draw) = .ok out)
    {i j : Nat} (hi : i < draw.length) (hj : j < k) :
    i * k + j < (sorted_metric_response uraw).length ∧
    ∃ chip core,
      out[i]? = some chip ∧
      chip.core_usage[j]? = some core ∧
      core.core_id =
        ((sorted_metric_response uraw).getD (i * k + j) mdummy).int_attr ∧
      core.memory_usage =
        ((sorted_metric_response uraw).getD (i * k + j) mdummy).as_int ∧
      core.total_memory =
        ((sorted_metric_response traw).getD (i * k + j) mdummy).as_int := by
  obtain ⟨-, hlu, hout⟩ := get_chip_usage_ok_elim hok
  have hi' : i < (sorted_metric_response draw).length := by
    rw [sorted_metric_response_length]; exact hi
  subst hout
  refine ⟨?_, ?_⟩
  · rw [hlu, sorted_metric_response_length]
    exact chip_core_index_lt hi hj
  · refine ⟨⟨build_core_usage k (sorted_metric_response traw)
        (sorted_metric_response uraw) i,
      ((sorted_metric_response draw).getD i mdummy).as_double⟩,
      ⟨((sorted_metric_response uraw).getD (i * k + j) mdummy).int_attr,
        ((sorted_metric_response uraw).getD (i * k + j) mdummy).as_int,
        ((sorted_metric_response traw).getD (i * k + j) mdummy).as_int⟩,
      ?_, ?_, rfl, rfl, rfl⟩
    · simp only [build_usage]
      rw [List.getElem?_map, List.getElem?_range hi']
      rfl
    · simp only [build_core_usage]
      rw [List.getElem?_map, List.getElem?_range hj]
      rfl

/-- Witness for C1 at a concrete validated input with two cores per
chip. -/
theorem get_chip_usage_core_fields_witness :
    (1 : Nat) * 2 + 1 <
      (sorted_metric_response
        [⟨0, 10, 0⟩, ⟨1, 11, 0⟩, ⟨2, 12, 0⟩, ⟨3, 13, 0⟩]).length ∧
    ∃ chip core,
      [ChipUsage.mk [⟨0, 10, 20⟩, ⟨1, 11, 21⟩] (1/2),
        ChipUsage.mk [⟨2, 12, 22⟩, ⟨3, 13, 23⟩] (4/5)][(1 : Nat)]? =
          some chip ∧
      chip.core_usage[(1 : Nat)]? = some core ∧
      core.core_id =
        ((sorted_metric_response
          [⟨0, 10, 0⟩, ⟨1, 11, 0⟩, ⟨2, 12, 0⟩, ⟨3, 13, 0⟩]).getD
            (1 * 2 + 1) mdummy).int_attr ∧
      core.memory_usage =
        ((sorted_metric_response
          [⟨0, 10, 0⟩, ⟨1, 11, 0⟩, ⟨2, 12, 0⟩, ⟨3, 13, 0⟩]).getD
            (1 * 2 + 1) mdummy).as_int ∧
      core.total_memory =
        ((sorted_metric_response
          [⟨0, 20, 0⟩, ⟨1, 21, 0⟩, ⟨2, 22, 0⟩, ⟨3, 23, 0⟩]).getD
            (1 * 2 + 1) mdummy).as_int :=
  @get_chip_usage_core_fields 2
    [⟨0, 20, 0⟩, ⟨1, 21, 0⟩, ⟨2, 22, 0⟩, ⟨3, 23, 0⟩]
    [⟨0, 10, 0⟩, ⟨1, 11, 0⟩, ⟨2, 12, 0⟩, ⟨3, 13, 0⟩]
    [⟨0, 0, 1/2⟩, ⟨1, 0, 4/5⟩]
    [ChipUsage.mk [⟨0, 10, 20⟩, ⟨1, 11, 21⟩] (1/2),
      ChipUsage.mk [⟨2, 12, 22⟩, ⟨3, 13, 23⟩] (4/5)]
    (by
      simp only [get_chip_usage, sorted_metric_response]
      rw [List.mergeSort_of_sorted (by decide),
        List.mergeSort_of_sorted (by decide),
        List.mergeSort_of_sorted (by decide)]
      simp [build_usage, build_core_usage, mdummy, List.range_succ])
    1 1 (by decide) (by decide)

/-- Claim C3: for every validated input and chip index `i`, the
`duty_cycle_pct` of output chip `i` is the double gauge of the `i`-th
entry of the sorted duty-cycle stream, assigned once per chip (the
record carries a single chip-level value, never one per core). -/
theorem get_chip_usage_duty_cycle {k : Nat} {traw uraw draw : List Metric}
    {out : List ChipUsage}
    (hok : get_chip_usage k (.ok traw) (.ok uraw) (.ok draw) = .ok out)
    {i : Nat} (hi : i < draw.length) :
    ∃ chip,
      out[i]? = some chip ∧
      chip.duty_cycle_pct =
        ((sorted_metric_response draw).getD i mdummy).as_double := by
  obtain ⟨-, -, hout⟩ := get_chip_usage_ok_elim hok
  have hi' : i < (sorted_metric_response draw).length := by
    rw [sorted_metric_response_length]; exact hi
  subst hout
  refine ⟨⟨build_core_usage k (sorted_metric_response traw)
      (sorted_metric_response uraw) i,
    ((sorted_metric_response draw).getD i mdummy).as_double⟩, ?_, rfl⟩
  simp only [build_usage]
  rw [List.getElem?_map, List.getElem?_range hi']
  rfl

/-- Witness for C3 at a concrete validated input. -/
theorem get_chip_usage_duty_cycle_witness :
    ∃ chip,
      [ChipUsage.mk [⟨0, 1, 2⟩] (7/10)][(0 : Nat)]? = some chip ∧
      chip.duty_cycle_pct =
        ((sorted_metric_response [⟨0, 0, 7/10⟩]).getD 0 mdummy).as_double :=
  @get_chip_usage_duty_cycle 1 [⟨0, 2, 0⟩] [⟨0, 1, 0⟩] [⟨0, 0, 7/10⟩]
    [ChipUsage.mk [⟨0, 1, 2⟩] (7/10)]
    (by simp [get_chip_usage, sorted_metric_response, build_usage,
      build_core_usage, mdummy, List.range_succ])
    0 (by decide)

/-- Claim C6: if, after sorting, each positionally-paired usage/total
sample satisfies `0 ≤ usage gauge ≤ total gauge`, then every `CoreUsage`
of the assembled output satisfies
`0 ≤ memory_usage ≤ total_memory` — the grouping copies the gauges
verbatim and introduces no corruption or truncation. -/
theorem get_chip_usage_memory_bounds {k : Nat} {traw uraw draw : List Metric}
    {out : List ChipUsage}
    (hok : get_chip_usage k (.ok traw) (.ok uraw) (.ok draw) = .ok out)
    (hband : ∀ idx < (sorted_metric_response uraw).length,
      0 ≤ ((sorted_metric_response uraw).getD idx mdummy).as_int ∧
      ((sorted_metric_response uraw).getD idx mdummy).as_int ≤
        ((sorted_metric_response traw).getD idx mdummy).as_int) :
    ∀ chip ∈ out, ∀ core ∈ chip.core_usage,
      0 ≤ core.memory_usage ∧ core.memory_usage ≤ core.total_memory := by
  obtain ⟨-, hlu, hout⟩ := get_chip_usage_ok_elim hok
  subst hout
  intro chip hchip core hcore
  simp only [build_usage] at hchip
  obtain ⟨i, hiR, hif⟩ := List.mem_map.mp hchip
  have hi : i < (sorted_metric_response draw).length := List.mem_range.mp hiR
  subst hif
  simp only [build_core_usage] at hcore
  obtain ⟨j, hjR, hjf⟩ := List.mem_map.mp hcore
  have hj : j < k := List.mem_range.mp hjR
  have hidx : i * k + j < (sorted_metric_response uraw).length := by
    rw [hlu]
    exact chip_core_index_lt hi hj
  subst hjf
  exact hband (i * k + j) hidx

/-- Witness for C6 at a concrete validated input satisfying the
positional bound hypothesis. -/
theorem get_chip_usage_memory_bounds_witness :
    (∀ idx < (sorted_metric_response [Metric.mk 0 1 0]).length,
      0 ≤ ((sorted_metric_response [Metric.mk 0 1 0]).getD idx mdummy).as_int ∧
      ((sorted_metric_response [Metric.mk 0 1 0]).getD idx mdummy).as_int ≤
        ((sorted_metric_response [Metric.mk 0 2 0]).getD idx mdummy).as_int) ∧
    ∀ chip ∈ [ChipUsage.mk [⟨0, 1, 2⟩] 0], ∀ core ∈ chip.core_usage,
      0 ≤ core.memory_usage ∧ core.memory_usage ≤ core.total_memory :=
  ⟨by
    simp only [sorted_metric_response, List.mergeSort_singleton]
    decide,
  @get_chip_usage_memory_bounds 1 [⟨0, 2, 0⟩] [⟨0, 1, 0⟩] [⟨0, 0, 0⟩]
    [ChipUsage.mk [⟨0, 1, 2⟩] 0]
    (by simp [get_chip_usage, sorted_metric_response, build_usage,
      build_core_usage, mdummy, List.range_succ])
    (by
      simp only [sorted_metric_response, List.mergeSort_singleton]
      decide)⟩

/-- Claim C8: within every output chip, the `core_usage` sequence is
non-decreasing in `core_id`; this follows from the grouping over the
sorted usage stream, with no separate re-sort of the assembled
records. -/
theorem get_chip_usage_cores_ordered {k : Nat} {traw uraw draw : List Metric}
    {out : List ChipUsage}
    (hok : get_chip_usage k (.ok traw) (.ok uraw) (.ok draw) = .ok out) :
    ∀ chip ∈ out,
      chip.core_usage.Pairwise (fun a b => a.core_id ≤ b.core_id) := by
  obtain ⟨-, hlu, hout⟩ := get_chip_usage_ok_elim hok
  subst hout
  intro chip hchip
  simp only [build_usage] at hchip
  obtain ⟨i, hiR, hif⟩ := List.mem_map.mp hchip
  have hi : i < (sorted_metric_response draw).length := List.mem_range.mp hiR
  have hsorted := sorted_metric_response_pairwise uraw
  subst hif
  simp only [build_core_usage]
  rw [List.pairwise_map, List.pairwise_iff_getElem]
  intro a b ha hb hab
  simp only [List.length_range] at ha hb
  simp only [List.getElem_range]
  have ha' : i * k + a < (sorted_metric_response uraw).length := by
    rw [hlu]
    exact chip_core_index_lt hi ha
  have hb' : i * k + b < (sorted_metric_response uraw).length := by
    rw [hlu]
    exact chip_core_index_lt hi hb
  rw [List.getD_eq_getElem _ _ ha', List.getD_eq_getElem _ _ hb']
  exact (List.pairwise_iff_getElem.mp hsorted) _ _ ha' hb'
    (Nat.add_lt_add_left hab _)

/-- Witness for C8 at a concrete validated input with two cores per
chip. -/
theorem get_chip_usage_cores_ordered_witness :
    (ChipUsage.mk [⟨0, 10, 20⟩, ⟨1, 11, 21⟩] 0).core_usage.Pairwise
      (fun a b => a.core_id ≤ b.core_id) :=
  @get_chip_usage_cores_ordered 2
    [⟨0, 20, 0⟩, ⟨1, 21, 0⟩] [⟨0, 10, 0⟩, ⟨1, 11, 0⟩] [⟨0, 0, 0⟩]
    [ChipUsage.mk [⟨0, 10, 20⟩, ⟨1, 11, 21⟩] 0]
    (by
      simp only [get_chip_usage, sorted_metric_response]
      rw [List.mergeSort_of_sorted (by decide),
        List.mergeSort_of_sorted (by decide),
        List.mergeSort_of_sorted (by decide)]
      simp [build_usage, build_core_usage, mdummy, List.range_succ])
    (ChipUsage.mk [⟨0, 10, 20⟩, ⟨1, 11, 21⟩] 0) (List.mem_singleton.mpr rfl)

/-- Helper: sorting is invariant under permutations of the raw stream
when the sort keys are pairwise distinct. -/
theorem sorted_metric_response_perm_eq {l₁ l₂ : List Metric}
    (hp : l₁.Perm l₂) (hn : (l₁.map Metric.int_attr).Nodup) :
    sorted_metric_response l₁ = sorted_metric_response l₂ := by
  have hperm : (sorted_metric_response l₁).Perm (sorted_metric_response l₂) :=
    ((List.mergeSort_perm l₁ _).trans hp).trans
      (List.mergeSort_perm l₂ _).symm
  have hn₁ : ((sorted_metric_response l₁).map Metric.int_attr).Nodup :=
    ((List.mergeSort_perm l₁ _).map Metric.int_attr).nodup_iff.mpr hn
  have hn₂ : ((sorted_metric_response l₂).map Metric.int_attr).Nodup :=
    ((List.mergeSort_perm l₂ _).map Metric.int_attr).nodup_iff.mpr
      ((hp.map Metric.int_attr).nodup_iff.mp hn)
  have hs₁ : (sorted_metric_response l₁).Sorted attr_lt := by
    have hle := sorted_metric_response_pairwise l₁
    have hne : (sorted_metric_response l₁).Pairwise
        (fun a b => a.int_attr ≠ b.int_attr) := List.pairwise_map.mp hn₁
    exact (hle.and hne).imp fun h => lt_of_le_of_ne h.1 h.2
  have hs₂ : (sorted_metric_response l₂).Sorted attr_lt := by
    have hle := sorted_metric_response_pairwise l₂
    have hne : (sorted_metric_response l₂).Pairwise
        (fun a b => a.int_attr ≠ b.int_attr) := List.pairwise_map.mp hn₂
    exact (hle.and hne).imp fun h => lt_of_le_of_ne h.1 h.2
  exact List.eq_of_perm_of_sorted hperm hs₁ hs₂

/-- Claim C7: when each raw stream is replaced by a permutation of
itself and the attribute values within each stream are pairwise
distinct, the whole query result is unchanged — each stream is sorted by
`attribute.value.int_attr` before any grouping. -/
theorem get_chip_usage_perm_invariant {k : Nat}
    {t₁ t₂ u₁ u₂ d₁ d₂ : List Metric}
    (hpt : t₁.Perm t₂) (hpu : u₁.Perm u₂) (hpd : d₁.Perm d₂)
    (hnt : (t₁.map Metric.int_attr).Nodup)
    (hnu : (u₁.map Metric.int_attr).Nodup)
    (hnd : (d₁.map Metric.int_attr).Nodup) :
    get_chip_usage k (.ok t₁) (.ok u₁) (.ok d₁) =
      get_chip_usage k (.ok t₂) (.ok u₂) (.ok d₂) := by
  simp only [get_chip_usage]
  rw [sorted_metric_response_perm_eq hpt hnt,
    sorted_metric_response_perm_eq hpu hnu,
    sorted_metric_response_perm_eq hpd hnd]

/-- Witness for C7: the usage stream arriving in order `3, 1, 0, 2`
gives the same result as the stream arriving already sorted. -/
theorem get_chip_usage_perm_invariant_witness :
    List.Perm
      [Metric.mk 3 13 0, Metric.mk 1 11 0, Metric.mk 0 10 0, Metric.mk 2 12 0]
      [Metric.mk 0 10 0, Metric.mk 1 11 0, Metric.mk 2 12 0,
        Metric.mk 3 13 0] ∧
    get_chip_usage 2
      (.ok [⟨0, 20, 0⟩, ⟨1, 21, 0⟩, ⟨2, 22, 0⟩, ⟨3, 23, 0⟩])
      (.ok [⟨3, 13, 0⟩, ⟨1, 11, 0⟩, ⟨0, 10, 0⟩, ⟨2, 12, 0⟩])
      (.ok [⟨0, 0, 1/2⟩, ⟨1, 0, 4/5⟩]) =
    get_chip_usage 2
      (.ok [⟨0, 20, 0⟩, ⟨1, 21, 0⟩, ⟨2, 22, 0⟩, ⟨3, 23, 0⟩])
      (.ok [⟨0, 10, 0⟩, ⟨1, 11, 0⟩, ⟨2, 12, 0⟩, ⟨3, 13, 0⟩])
      (.ok [⟨0, 0, 1/2⟩, ⟨1, 0, 4/5⟩]) :=
  ⟨by decide,
    @get_chip_usage_perm_invariant 2
      [⟨0, 20, 0⟩, ⟨1, 21, 0⟩, ⟨2, 22, 0⟩, ⟨3, 23, 0⟩]
      [⟨0, 20, 0⟩, ⟨1, 21, 0⟩, ⟨2, 22, 0⟩, ⟨3, 23, 0⟩]
      [⟨3, 13, 0⟩, ⟨1, 11, 0⟩, ⟨0, 10, 0⟩, ⟨2, 12, 0⟩]
      [⟨0, 10, 0⟩, ⟨1, 11, 0⟩, ⟨2, 12, 0⟩, ⟨3, 13, 0⟩]
      [⟨0, 0, 1/2⟩, ⟨1, 0, 4/5⟩] [⟨0, 0, 1/2⟩, ⟨1, 0, 4/5⟩]
      (List.Perm.refl _) (by decide) (List.Perm.refl _)
      (by decide) (by decide) (by decide)⟩

/-- Claim C2 (amended): on any violation of the chained length equation
the query fails with the `AssertionError` carrying the fixed message
"Metrics not found for all chips", and no `ChipUsage` list is
produced. -/
theorem get_chip_usage_mismatch_fails {k : Nat} {traw uraw draw : List Metric}
    (hbad : ¬(traw.length = uraw.length ∧
      uraw.length = draw.length * k)) :
    get_chip_usage k (.ok traw) (.ok uraw) (.ok draw) =
      .error (.assertionError "Metrics not found for all chips") := by
  have h : ¬((sorted_metric_response traw).length =
      (sorted_metric_response uraw).length ∧
      (sorted_metric_response uraw).length =
        (sorted_metric_response draw).length * k) := by
    simpa only [sorted_metric_response_length] using hbad
  simp only [get_chip_usage]
  rw [if_neg h]

/-- Witness for the amended C2 at a concrete violating input
(scenario 2 of the spec: a short usage stream). -/
theorem get_chip_usage_mismatch_fails_witness :
    ¬(([Metric.mk 0 2 0].length = [Metric.mk 0 1 0].length ∧
      [Metric.mk 0 1 0].length = [Metric.mk 0 0 0].length * 2)) ∧
    get_chip_usage 2 (.ok [⟨0, 2, 0⟩]) (.ok [⟨0, 1, 0⟩]) (.ok [⟨0, 0, 0⟩]) =
      .error (.assertionError "Metrics not found for all chips") :=
  ⟨by decide,
    @get_chip_usage_mismatch_fails 2 [⟨0, 2, 0⟩] [⟨0, 1, 0⟩] [⟨0, 0, 0⟩]
      (by decide)⟩

/-- Counterexample to C2 as stated: two violating runs with different
length triples — `(1, 1, 1)` and `(3, 2, 1)` under fan-out `2` — produce
literally the same failure value, so the raised condition carries only
the fixed assert message and cannot carry the three lengths or the
fan-out factor. -/
theorem get_chip_usage_mismatch_payload_counterexample :
    get_chip_usage 2 (.ok [⟨0, 2, 0⟩]) (.ok [⟨0, 1, 0⟩]) (.ok [⟨0, 0, 0⟩]) =
      .error (.assertionError "Metrics not found for all chips") ∧
    get_chip_usage 2 (.ok [⟨0, 2, 0⟩, ⟨1, 2, 0⟩, ⟨2, 2, 0⟩])
        (.ok [⟨0, 1, 0⟩, ⟨1, 1, 0⟩]) (.ok [⟨0, 0, 0⟩]) =
      .error (.assertionError "Metrics not found for all chips") ∧
    ¬((1 : Nat) = 1 ∧ (1 : Nat) = 1 * 2) ∧
    ¬((3 : Nat) = 2 ∧ (2 : Nat) = 1 * 2) ∧
    ((1, 1, 1) : Nat × Nat × Nat) ≠ (3, 2, 1) := by
  refine ⟨?_, ?_, by decide, by decide, by decide⟩
  · simp only [get_chip_usage, sorted_metric_response]
    rw [List.mergeSort_of_sorted (by decide),
      List.mergeSort_of_sorted (by decide),
      List.mergeSort_of_sorted (by decide)]
    simp
  · simp only [get_chip_usage, sorted_metric_response]
    rw [List.mergeSort_of_sorted (by decide),
      List.mergeSort_of_sorted (by decide),
      List.mergeSort_of_sorted (by decide)]
    simp

/-- Claim C9: a transport failure in any of the three metric calls makes
`get_chip_usage` propagate that `grpc.RpcError` unchanged; the caller's
handler in `print_chip_info` turns the `UNAVAILABLE` status code into an
early return that prints no usage, and re-raises the same error for
every other status code (and the uncaught `AssertionError` path is a
different constructor, so the discrimination is exact). -/
theorem print_chip_info_error_discrimination {k : Nat}
    {t u d : Except RpcError (List Metric)} {e : RpcError}
    (hfirst : t = .error e ∨
      (∃ tl, t = .ok tl ∧ u = .error e) ∨
      (∃ tl ul, t = .ok tl ∧ u = .ok ul ∧ d = .error e)) :
    get_chip_usage k t u d = .error (.rpcError e) ∧
    (e.code = .unavailable →
      print_chip_info_handle (get_chip_usage k t u d) = .returnedNoUsage) ∧
    (e.code ≠ .unavailable →
      print_chip_info_handle (get_chip_usage k t u d) =
        .raised (.rpcError e)) := by
  have herr : get_chip_usage k t u d = .error (.rpcError e) := by
    rcases hfirst with h | ⟨tl, ht, hu⟩ | ⟨tl, ul, ht, hu, hd⟩
    · rw [h]; rfl
    · rw [ht, hu]; rfl
    · rw [ht, hu, hd]; rfl
  refine ⟨herr, ?_, ?_⟩
  · intro hcode
    rw [herr]
    simp [print_chip_info_handle, hcode]
  · intro hcode
    rw [herr]
    simp [print_chip_info_handle, hcode]

/-- Witness for C9: the first transport call fails with `UNAVAILABLE`. -/
theorem print_chip_info_error_discrimination_witness :
    get_chip_usage 1 (.error ⟨.unavailable⟩) (.ok []) (.ok []) =
      .error (.rpcError ⟨.unavailable⟩) ∧
    ((RpcError.mk .unavailable).code = .unavailable →
      print_chip_info_handle
        (get_chip_usage 1 (.error ⟨.unavailable⟩) (.ok []) (.ok [])) =
        .returnedNoUsage) ∧
    ((RpcError.mk .unavailable).code ≠ .unavailable →
      print_chip_info_handle
        (get_chip_usage 1 (.error ⟨.unavailable⟩) (.ok []) (.ok [])) =
        .raised (.rpcError ⟨.unavailable⟩)) :=
  @print_chip_info_error_discrimination 1 (.error ⟨.unavailable⟩)
    (.ok []) (.ok []) ⟨.unavailable⟩ (Or.inl rfl)

end TpuInfo
